import Mathlib

/-!
Verification of the external-command orchestration core of the repository:
`react-sre-project/scripts/deploy_app.py` and
`react-sre-project/scripts/minikube_control.py`.

The shallow embedding models each external-process attempt by an oracle
value describing what the spawned process did (exit with a code and
captured streams, time out, or fail to spawn — the latter corresponds to
an uncaught Python exception such as `FileNotFoundError` from
`subprocess.run`).  Pure control flow (retry loops, status parsing, the
stage sequence of `main`, the readiness-polling loops) is translated
function by function from the Python source.
-/

namespace SRE

/-- Outcome of one `subprocess.run` attempt: the process exits with a
return code and captured stdout/stderr, the attempt hits the timeout
(`subprocess.TimeoutExpired`, caught by both runners), or the spawn
itself fails (an exception such as `FileNotFoundError`, which neither
runner catches). -/
inductive AttemptOutcome where
  | exit (returncode : Int) (stdout : String) (stderr : String)
  | timedOut
  | spawnFail (msg : String)
deriving Repr, DecidableEq

/-- `true` on the outcomes the retry loop treats as a failed attempt and
retries: a non-zero exit code or a timeout.  A spawn failure is not a
failed attempt — it escapes the loop as an exception. -/
def AttemptOutcome.isTransientFailure : AttemptOutcome → Bool
  | .exit rc _ _ => rc != 0
  | .timedOut => true
  | .spawnFail _ => false

/-- `true` exactly on spawn failures. -/
def AttemptOutcome.isSpawnFail : AttemptOutcome → Bool
  | .spawnFail _ => true
  | _ => false

/-- Python's `str.strip()` with no argument: remove leading and trailing
whitespace.  Written over the character list so that it evaluates inside
the kernel. -/
def pyStrip (s : String) : String :=
  ⟨((s.data.dropWhile Char.isWhitespace).reverse.dropWhile
      Char.isWhitespace).reverse⟩

/-- What a completed call of a `run_command` function did:
the returned value (`some` stripped stdout on success, `none` after the
retries are exhausted), how many attempts ran, and the (0-based) indices
of the attempts after which a `time.sleep(5)` backoff executed. -/
structure RunResult where
  output : Option String
  attemptsMade : Nat
  sleepsAfter : List Nat
deriving Repr, DecidableEq

/-- Loop body of `run_command` in `deploy_app.py` (lines 37-75):
`for attempt in range(retry)`, return `result.stdout.strip()` on exit
code 0, sleep 5 seconds after a failed attempt only when
`attempt < retry - 1`, and return `None` when the loop exhausts.  An
uncaught exception from `subprocess.run` is the `.error` case.
The recursion is on `remaining`, the number of loop iterations still to
run: the invariant `attempt + remaining = retry` ties it to the Python
loop counter, and `attempt < retry - 1` becomes `0 < remaining` after
the decrement. -/
def runCommandGo (behavior : Nat → AttemptOutcome) (attempt : Nat)
    (sleeps : List Nat) : Nat → Except String RunResult
  | 0 => .ok ⟨none, attempt, sleeps⟩
  | remaining + 1 =>
    match behavior attempt with
    | .exit rc out _ =>
      if rc = 0 then
        .ok ⟨some (pyStrip out), attempt + 1, sleeps⟩
      else
        runCommandGo behavior (attempt + 1)
          (if 0 < remaining then sleeps ++ [attempt] else sleeps) remaining
    | .timedOut =>
        runCommandGo behavior (attempt + 1)
          (if 0 < remaining then sleeps ++ [attempt] else sleeps) remaining
    | .spawnFail msg => .error msg

/-- `run_command` of `deploy_app.py`: the caller supplies the per-attempt
process behavior and the `retry` argument (its Python default is 1). -/
def run_command (behavior : Nat → AttemptOutcome) (retry : Nat) :
    Except String RunResult :=
  runCommandGo behavior 0 [] retry

/-- Loop body of `run_command` in `minikube_control.py` (lines 33-56):
identical shape, except the `time.sleep(5)` after a failed attempt is
unconditional — it also runs after the final attempt. -/
def mkRunCommandGo (behavior : Nat → AttemptOutcome) (attempt : Nat)
    (sleeps : List Nat) : Nat → Except String RunResult
  | 0 => .ok ⟨none, attempt, sleeps⟩
  | remaining + 1 =>
    match behavior attempt with
    | .exit rc out _ =>
      if rc = 0 then
        .ok ⟨some (pyStrip out), attempt + 1, sleeps⟩
      else
        mkRunCommandGo behavior (attempt + 1) (sleeps ++ [attempt]) remaining
    | .timedOut =>
        mkRunCommandGo behavior (attempt + 1) (sleeps ++ [attempt]) remaining
    | .spawnFail msg => .error msg

/-- `run_command` of `minikube_control.py`; its Python `retry` default
is 3. -/
def mk_run_command (behavior : Nat → AttemptOutcome) (retry : Nat) :
    Except String RunResult :=
  mkRunCommandGo behavior 0 [] retry

/-- `startsWithChars s p` is `true` when `p` is an initial segment of
`s` (helper for the substring test below). -/
def startsWithChars : List Char → List Char → Bool
  | _, [] => true
  | [], _ :: _ => false
  | a :: s, b :: p => a == b && startsWithChars s p

/-- `containsChars s p` is `true` when `p` occurs contiguously in `s`. -/
def containsChars (s p : List Char) : Bool :=
  match s with
  | [] => startsWithChars [] p
  | _ :: rest => startsWithChars s p || containsChars rest p

/-- Python's `pat in s` substring test. -/
def containsStr (s pat : String) : Bool :=
  containsChars s.data pat.data

/-- The body of the `if status:` branch of `check_minikube_status`:
`json.loads(status).get("Host", "") == "Running"`, falling back to
`"Running" in status` when decoding raises `JSONDecodeError`.  The JSON
library is an external collaborator; `jsonHost` stands for
`json.loads(s).get("Host", "")`, with `none` meaning the decode raised. -/
def statusIndicatesRunning (jsonHost : String → Option String)
    (s : String) : Bool :=
  match jsonHost s with
  | some h => h == "Running"
  | none => containsStr s "Running"

/-- `check_minikube_status` of `deploy_app.py` (lines 77-89): run the
status query through `run_command` with the default `retry=1`, and parse
the result.  Python's `if status:` is false for `None` and for the empty
string.  Returns the boolean answer together with the number of attempts
the status query performed. -/
def check_minikube_status (jsonHost : String → Option String)
    (behavior : Nat → AttemptOutcome) : Except String (Bool × Nat) :=
  match run_command behavior 1 with
  | .error e => .error e
  | .ok r =>
    match r.output with
    | some s =>
      if s == "" then .ok (false, r.attemptsMade)
      else .ok (statusIndicatesRunning jsonHost s, r.attemptsMade)
    | none => .ok (false, r.attemptsMade)

/-- `check_minikube_status` of `minikube_control.py` (lines 58-72): the
same parsing, but the status query goes through that script's
`run_command` with its default `retry=3`. -/
def mk_check_minikube_status (jsonHost : String → Option String)
    (behavior : Nat → AttemptOutcome) : Except String (Bool × Nat) :=
  match mk_run_command behavior 3 with
  | .error e => .error e
  | .ok r =>
    match r.output with
    | some s =>
      if s == "" then .ok (false, r.attemptsMade)
      else .ok (statusIndicatesRunning jsonHost s, r.attemptsMade)
    | none => .ok (false, r.attemptsMade)

/-! ## The deployment pipeline (`main` of `deploy_app.py`, lines 391-442)

Each stage function of `deploy_app.py` ultimately reports a boolean.
For the pipeline-level claims the model abstracts every stage call to
the boolean it would return, supplied by a `World`, and records which
stage functions `main` actually invoked. -/

/-- The command-line flags `main` reads (`--env` does not influence the
control flow modelled here). -/
structure Args where
  skipBuild : Bool
  skipMonitoring : Bool
  portForward : Bool
deriving Repr, DecidableEq

/-- The boolean each stage function would report if `main` calls it. -/
structure World where
  minikubeRunning : Bool
  namespacesOk : Bool
  reactBuildOk : Bool
  dockerBuildOk : Bool
  monitoringOk : Bool
  deployOk : Bool
deriving Repr, DecidableEq

/-- The observable calls `main` makes, in order: the initial
`check_minikube_status`, the five stage functions, and
`setup_port_forwarding`. -/
inductive Stage where
  | statusCheck
  | namespaces
  | reactBuild
  | dockerBuild
  | monitoring
  | deploy
  | portForward
deriving Repr, DecidableEq

/-- The tail of `main` after the fatal stages (lines 424-442): the
monitoring stage (soft: failure sets `success = False` and continues),
the application deploy (failure also sets `success = False`), the
port-forward guard `if args.port_forward and success`, and the returned
flag. -/
def mainAfterBuild (a : Args) (w : World) (ex : List Stage) :
    Bool × List Stage :=
  let s1 := if a.skipMonitoring then true else w.monitoringOk
  let ex1 := if a.skipMonitoring then ex else ex ++ [Stage.monitoring]
  let s2 := s1 && w.deployOk
  let ex2 := ex1 ++ [Stage.deploy]
  if a.portForward && s2 then (s2, ex2 ++ [Stage.portForward])
  else (s2, ex2)

/-- `main` of `deploy_app.py` (lines 391-442): the prerequisite
`check_minikube_status` guard, then `create_namespaces`,
`build_react_app` and `build_docker_image` (each aborting with `False`
on failure), then the soft monitoring stage, the deploy stage, and the
port-forward guard.  Returns the final flag and the ordered list of
calls made. -/
def mainRun (a : Args) (w : World) : Bool × List Stage :=
  if !w.minikubeRunning then (false, [Stage.statusCheck])
  else
    let ex := [Stage.statusCheck, Stage.namespaces]
    if !w.namespacesOk then (false, ex)
    else if a.skipBuild then mainAfterBuild a w ex
    else
      let ex := ex ++ [Stage.reactBuild]
      if !w.reactBuildOk then (false, ex)
      else
        let ex := ex ++ [Stage.dockerBuild]
        if !w.dockerBuildOk then (false, ex)
        else mainAfterBuild a w ex

/-! ## Readiness polling (`deploy_monitoring` lines 276-310 and
`deploy_application` lines 331-349 of `deploy_app.py`)

Each loop iteration runs one status query through `run_command` with the
default `retry=1`.  The oracle `q` gives the single attempt's process
outcome for each iteration, and `dur` the wall-clock seconds that
iteration's query consumed; the `time.sleep(10)` at the bottom of each
loop contributes the fixed `+ 10`. -/

/-- `deploy_app.py` line 20. -/
def DEPLOY_TIMEOUT : Nat := 300

/-- The readiness test of `deploy_application` (line 340):
`app_status and "Running" in app_status and "Pending" not in app_status`,
where `app_status` is `None` or the stripped stdout (empty is falsy). -/
def appPodsReady : Option String → Bool
  | some s => s != "" && containsStr s "Running" && !containsStr s "Pending"
  | none => false

/-- The per-service readiness test of `deploy_monitoring` (lines 288 and
297): `status and "Running" in status`. -/
def monPodReady : Option String → Bool
  | some s => s != "" && containsStr s "Running"
  | none => false

/-- The `while time.time() - start_time < DEPLOY_TIMEOUT` wait loop of
`deploy_application` (lines 333-349).  A spawn failure of the query
escapes as `.error`, like the uncaught exception would in Python. -/
def appWaitLoop (q : Nat → AttemptOutcome) (dur : Nat → Nat)
    (n elapsed : Nat) : Except String Bool :=
  if _h : elapsed < DEPLOY_TIMEOUT then
    match run_command (fun _ => q n) 1 with
    | .error e => .error e
    | .ok r =>
      if appPodsReady r.output then .ok true
      else appWaitLoop q dur (n + 1) (elapsed + dur n + 10)
  else .ok false
termination_by DEPLOY_TIMEOUT - elapsed
decreasing_by omega

/-- One `if not <service>_ready:` block of the monitoring wait loop
(lines 283-299): when the flag is already set the query is skipped,
otherwise the status query runs (single attempt) and the flag becomes
the readiness test of its output. -/
def monCheckOne (ready : Bool) (o : AttemptOutcome) : Except String Bool :=
  if ready then .ok true
  else
    match run_command (fun _ => o) 1 with
    | .error e => .error e
    | .ok r => .ok (monPodReady r.output)

/-- The `while time.time() - start_time < DEPLOY_TIMEOUT` wait loop of
`deploy_monitoring` (lines 282-310): check Prometheus, check Grafana,
return `True` when both flags hold, otherwise sleep 10 seconds and poll
again.  `pq`/`gq` give each iteration's query outcomes, `pd`/`gd` the
seconds the queries consumed (counted only when the query actually
runs). -/
def monWaitLoop (pq gq : Nat → AttemptOutcome) (pd gd : Nat → Nat)
    (n elapsed : Nat) (pready gready : Bool) : Except String Bool :=
  if _h : elapsed < DEPLOY_TIMEOUT then
    match monCheckOne pready (pq n) with
    | .error e => .error e
    | .ok pready2 =>
      match monCheckOne gready (gq n) with
      | .error e => .error e
      | .ok gready2 =>
        if pready2 && gready2 then .ok true
        else
          monWaitLoop pq gq pd gd (n + 1)
            (elapsed + (if pready then 0 else pd n) +
              (if gready then 0 else gd n) + 10) pready2 gready2
  else .ok false
termination_by DEPLOY_TIMEOUT - elapsed
decreasing_by omega

/-! ## `start_minikube` (`minikube_control.py`, lines 74-109) -/

/-- `minikube_control.py` line 16. -/
def MINIKUBE_WAIT_TIMEOUT : Nat := 60

/-- The calls `start_minikube` makes that touch the outside world: the
(read-only) `check_minikube_status` query, the `minikube start` command,
and the `kubectl version` validation query. -/
inductive MkCmd where
  | statusQuery
  | startCmd
  | versionQuery
deriving Repr, DecidableEq

/-- Oracle for one `start_minikube` call: `status k` is what the `k`-th
`check_minikube_status()` call reports, `startResult` what
`run_command(["minikube", "start", ...])` returns (`none` after
exhausted retries), `versionResult k` what the `kubectl version` query
returns when the `k`-th status call reported running, and `stepTime k`
the extra seconds iteration `k` of the wait loop consumed beyond its
`time.sleep(5)`. -/
structure MkWorld where
  status : Nat → Bool
  startResult : Option String
  versionResult : Nat → Option String
  stepTime : Nat → Nat

/-- The `while time.time() - start_time < MINIKUBE_WAIT_TIMEOUT` loop of
`start_minikube` (lines 96-106): if the status check reports running,
validate `kubectl version` (Python truthiness: `None` and `""` are
falsy) and return `True` on success; otherwise sleep 5 seconds and loop.
Returns `False` with the accumulated command trace on deadline. -/
def startWaitLoop (w : MkWorld) (k elapsed : Nat) (acc : List MkCmd) :
    Bool × List MkCmd :=
  if _h : elapsed < MINIKUBE_WAIT_TIMEOUT then
    if w.status k then
      match w.versionResult k with
      | some v =>
        if v != "" then (true, acc ++ [MkCmd.statusQuery, MkCmd.versionQuery])
        else
          startWaitLoop w (k + 1) (elapsed + w.stepTime k + 5)
            (acc ++ [MkCmd.statusQuery, MkCmd.versionQuery])
      | none =>
          startWaitLoop w (k + 1) (elapsed + w.stepTime k + 5)
            (acc ++ [MkCmd.statusQuery, MkCmd.versionQuery])
    else
      startWaitLoop w (k + 1) (elapsed + w.stepTime k + 5)
        (acc ++ [MkCmd.statusQuery])
  else (false, acc)
termination_by MINIKUBE_WAIT_TIMEOUT - elapsed
decreasing_by all_goals omega

/-- `start_minikube` (lines 74-109): return `True` at once when the
status check already reports running; otherwise issue `minikube start`
(returning `False` when it comes back `None`) and enter the wait loop.
The result pairs the returned boolean with the ordered trace of calls
made. -/
def start_minikube (w : MkWorld) : Bool × List MkCmd :=
  if w.status 0 then (true, [MkCmd.statusQuery])
  else
    match w.startResult with
    | none => (false, [MkCmd.statusQuery, MkCmd.startCmd])
    | some _ => startWaitLoop w 1 0 [MkCmd.statusQuery, MkCmd.startCmd]

/-! ## Lemmas about the retry loops -/

/-- When at most one more attempt could have run, the "a further
attempt followed" disjunct is vacuous. -/
theorem sleeps_iff_triv (sleeps : List Nat) (attempt aM : Nat)
    (hle : aM ≤ attempt + 1) (i : Nat) :
    i ∈ sleeps ↔ (i ∈ sleeps ∨ (attempt ≤ i ∧ i + 1 < aM)) := by
  constructor
  · exact fun hi => Or.inl hi
  · rintro (hi | ⟨h1, h2⟩)
    · exact hi
    · omega

/-- Shifting the sleep characterisation across one failed attempt that
appended its own index to the accumulator. -/
theorem sleeps_iff_step (sleeps : List Nat) (attempt aM : Nat)
    (sA : List Nat) (hge : attempt + 2 ≤ aM)
    (hrec : ∀ i, i ∈ sA ↔
      (i ∈ sleeps ++ [attempt] ∨ (attempt + 1 ≤ i ∧ i + 1 < aM)))
    (i : Nat) :
    i ∈ sA ↔ (i ∈ sleeps ∨ (attempt ≤ i ∧ i + 1 < aM)) := by
  rw [hrec i]
  simp only [List.mem_append, List.mem_singleton]
  constructor
  · rintro ((hi | hi) | ⟨h1, h2⟩)
    · exact Or.inl hi
    · exact Or.inr ⟨by omega, by omega⟩
    · exact Or.inr ⟨by omega, h2⟩
  · rintro (hi | ⟨h1, h2⟩)
    · exact Or.inl (Or.inl hi)
    · rcases Nat.eq_or_lt_of_le h1 with he | hlt
      · exact Or.inl (Or.inr he.symm)
      · exact Or.inr ⟨by omega, h2⟩

/-- Characterisation of a completed `deploy_app.py` retry loop: the
recorded backoff sleeps are exactly the already-accumulated ones plus
one after each attempt (from `attempt` on) that was followed by a
further attempt, and the attempt count is bounded by the remaining
iterations, with at least one attempt performed when iterations
remain. -/
theorem runCommandGo_ok_spec (b : Nat → AttemptOutcome) :
    ∀ remaining attempt sleeps r,
      runCommandGo b attempt sleeps remaining = .ok r →
      (∀ i, i ∈ r.sleepsAfter ↔
        (i ∈ sleeps ∨ (attempt ≤ i ∧ i + 1 < r.attemptsMade)))
      ∧ r.attemptsMade ≤ attempt + remaining
      ∧ (0 < remaining → attempt + 1 ≤ r.attemptsMade) := by
  intro remaining
  induction remaining with
  | zero =>
    intro attempt sleeps r h
    simp only [runCommandGo, Except.ok.injEq] at h
    subst h
    exact ⟨sleeps_iff_triv sleeps attempt attempt (by omega),
      by dsimp only; omega, by dsimp only; omega⟩
  | succ m ih =>
    intro attempt sleeps r h
    rw [runCommandGo] at h
    cases hb : b attempt with
    | exit rc out err =>
      rw [hb] at h
      simp only at h
      by_cases hrc : rc = 0
      · rw [if_pos hrc] at h
        simp only [Except.ok.injEq] at h
        subst h
        exact ⟨sleeps_iff_triv sleeps attempt (attempt + 1) (by omega),
          by dsimp only; omega, by dsimp only; omega⟩
      · rw [if_neg hrc] at h
        rcases Nat.eq_zero_or_pos m with hm | hm
        · subst hm
          rw [if_neg (by omega : ¬ (0:Nat) < 0)] at h
          simp only [runCommandGo, Except.ok.injEq] at h
          subst h
          exact ⟨sleeps_iff_triv sleeps attempt (attempt + 1) (by omega),
            by dsimp only; omega, by dsimp only; omega⟩
        · rw [if_pos hm] at h
          obtain ⟨hiff, hub, hlb⟩ := ih (attempt + 1) (sleeps ++ [attempt]) r h
          have hge : attempt + 2 ≤ r.attemptsMade := hlb hm
          exact ⟨sleeps_iff_step sleeps attempt r.attemptsMade r.sleepsAfter
            hge hiff, by omega, by omega⟩
    | timedOut =>
      rw [hb] at h
      simp only at h
      rcases Nat.eq_zero_or_pos m with hm | hm
      · subst hm
        rw [if_neg (by omega : ¬ (0:Nat) < 0)] at h
        simp only [runCommandGo, Except.ok.injEq] at h
        subst h
        exact ⟨sleeps_iff_triv sleeps attempt (attempt + 1) (by omega),
          by dsimp only; omega, by dsimp only; omega⟩
      · rw [if_pos hm] at h
        obtain ⟨hiff, hub, hlb⟩ := ih (attempt + 1) (sleeps ++ [attempt]) r h
        have hge : attempt + 2 ≤ r.attemptsMade := hlb hm
        exact ⟨sleeps_iff_step sleeps attempt r.attemptsMade r.sleepsAfter
          hge hiff, by omega, by omega⟩
    | spawnFail msg =>
      rw [hb] at h
      simp only at h
      exact absurd h (by simp)

/-- Vacuity helper for the `minikube_control.py` sleep
characterisation. -/
theorem mk_sleeps_iff_triv (sleeps : List Nat) (attempt aM : Nat)
    (out : Option String)
    (hcond : ∀ i, attempt ≤ i →
      (i + 1 < aM ∨ (i + 1 = aM ∧ out = none)) → False) (i : Nat) :
    i ∈ sleeps ↔ (i ∈ sleeps ∨
      (attempt ≤ i ∧ (i + 1 < aM ∨ (i + 1 = aM ∧ out = none)))) := by
  constructor
  · exact fun hi => Or.inl hi
  · rintro (hi | ⟨h1, h2⟩)
    · exact hi
    · exact absurd h2 (fun hc => hcond i h1 hc)

/-- Step helper for the `minikube_control.py` sleep characterisation. -/
theorem mk_sleeps_iff_step (sleeps : List Nat) (attempt aM : Nat)
    (sA : List Nat) (out : Option String) (hge : attempt + 2 ≤ aM)
    (hrec : ∀ i, i ∈ sA ↔ (i ∈ sleeps ++ [attempt] ∨
      (attempt + 1 ≤ i ∧ (i + 1 < aM ∨ (i + 1 = aM ∧ out = none)))))
    (i : Nat) :
    i ∈ sA ↔ (i ∈ sleeps ∨
      (attempt ≤ i ∧ (i + 1 < aM ∨ (i + 1 = aM ∧ out = none)))) := by
  rw [hrec i]
  simp only [List.mem_append, List.mem_singleton]
  constructor
  · rintro ((hi | hi) | ⟨h1, h2⟩)
    · exact Or.inl hi
    · exact Or.inr ⟨by omega, Or.inl (by omega)⟩
    · exact Or.inr ⟨by omega, h2⟩
  · rintro (hi | ⟨h1, h2⟩)
    · exact Or.inl (Or.inl hi)
    · rcases Nat.eq_or_lt_of_le h1 with he | hlt
      · exact Or.inl (Or.inr he.symm)
      · exact Or.inr ⟨by omega, h2⟩

/-- Characterisation of a completed `minikube_control.py` retry loop:
a backoff sleep is recorded after every failed attempt — after the
attempts that were followed by a further attempt, and also after the
final attempt when the loop exhausted (`output = none`). -/
theorem mkRunCommandGo_ok_spec (b : Nat → AttemptOutcome) :
    ∀ remaining attempt sleeps r,
      mkRunCommandGo b attempt sleeps remaining = .ok r →
      (∀ i, i ∈ r.sleepsAfter ↔ (i ∈ sleeps ∨ (attempt ≤ i ∧
        (i + 1 < r.attemptsMade ∨
          (i + 1 = r.attemptsMade ∧ r.output = none)))))
      ∧ r.attemptsMade ≤ attempt + remaining
      ∧ (0 < remaining → attempt + 1 ≤ r.attemptsMade) := by
  intro remaining
  induction remaining with
  | zero =>
    intro attempt sleeps r h
    simp only [mkRunCommandGo, Except.ok.injEq] at h
    subst h
    refine ⟨mk_sleeps_iff_triv sleeps attempt attempt none ?_,
      by dsimp only; omega, by dsimp only; omega⟩
    rintro i h1 (h2 | ⟨h2, _⟩) <;> omega
  | succ m ih =>
    intro attempt sleeps r h
    rw [mkRunCommandGo] at h
    cases hb : b attempt with
    | exit rc out err =>
      rw [hb] at h
      simp only at h
      by_cases hrc : rc = 0
      · rw [if_pos hrc] at h
        simp only [Except.ok.injEq] at h
        subst h
        refine ⟨mk_sleeps_iff_triv sleeps attempt (attempt + 1)
          (some (pyStrip out)) ?_, by dsimp only; omega,
          by dsimp only; omega⟩
        rintro i h1 (h2 | ⟨h2, h3⟩)
        · omega
        · exact absurd h3 (by simp)
      · rw [if_neg hrc] at h
        rcases Nat.eq_zero_or_pos m with hm | hm
        · subst hm
          simp only [mkRunCommandGo, Except.ok.injEq] at h
          subst h
          refine ⟨fun i => ?_, by dsimp only; omega, by dsimp only; omega⟩
          dsimp only
          simp only [List.mem_append, List.mem_singleton]
          constructor
          · rintro (hi | hi)
            · exact Or.inl hi
            · exact Or.inr ⟨by omega, Or.inr ⟨by omega, trivial⟩⟩
          · rintro (hi | ⟨h1, h2 | ⟨h2, _⟩⟩)
            · exact Or.inl hi
            · omega
            · exact Or.inr (by omega)
        · obtain ⟨hiff, hub, hlb⟩ := ih (attempt + 1) (sleeps ++ [attempt]) r h
          have hge : attempt + 2 ≤ r.attemptsMade := hlb hm
          exact ⟨mk_sleeps_iff_step sleeps attempt r.attemptsMade
            r.sleepsAfter r.output hge hiff, by omega, by omega⟩
    | timedOut =>
      rw [hb] at h
      simp only at h
      rcases Nat.eq_zero_or_pos m with hm | hm
      · subst hm
        simp only [mkRunCommandGo, Except.ok.injEq] at h
        subst h
        refine ⟨fun i => ?_, by dsimp only; omega, by dsimp only; omega⟩
        dsimp only
        simp only [List.mem_append, List.mem_singleton]
        constructor
        · rintro (hi | hi)
          · exact Or.inl hi
          · exact Or.inr ⟨by omega, Or.inr ⟨by omega, trivial⟩⟩
        · rintro (hi | ⟨h1, h2 | ⟨h2, _⟩⟩)
          · exact Or.inl hi
          · omega
          · exact Or.inr (by omega)
      · obtain ⟨hiff, hub, hlb⟩ := ih (attempt + 1) (sleeps ++ [attempt]) r h
        have hge : attempt + 2 ≤ r.attemptsMade := hlb hm
        exact ⟨mk_sleeps_iff_step sleeps attempt r.attemptsMade
          r.sleepsAfter r.output hge hiff, by omega, by omega⟩
    | spawnFail msg =>
      rw [hb] at h
      simp only at h
      exact absurd h (by simp)

/-- When every remaining attempt fails transiently, the `deploy_app.py`
loop exhausts: it performs them all and returns `None`. -/
theorem runCommandGo_exhaust (b : Nat → AttemptOutcome) :
    ∀ remaining attempt sleeps,
      (∀ i, attempt ≤ i → i < attempt + remaining →
        (b i).isTransientFailure = true) →
      ∃ s, runCommandGo b attempt sleeps remaining =
        .ok ⟨none, attempt + remaining, s⟩ := by
  intro remaining
  induction remaining with
  | zero => intro attempt sleeps _; exact ⟨sleeps, rfl⟩
  | succ m ih =>
    intro attempt sleeps hfail
    have hf := hfail attempt (Nat.le_refl _) (by omega)
    cases hb : b attempt with
    | exit rc out err =>
      rw [hb] at hf
      simp only [AttemptOutcome.isTransientFailure, bne_iff_ne] at hf
      obtain ⟨s, hs⟩ := ih (attempt + 1)
        (if 0 < m then sleeps ++ [attempt] else sleeps)
        (fun i h1 h2 => hfail i (by omega) (by omega))
      refine ⟨s, ?_⟩
      rw [runCommandGo, hb]
      simp only [if_neg hf]
      rw [hs]
      congr 2
      omega
    | timedOut =>
      obtain ⟨s, hs⟩ := ih (attempt + 1)
        (if 0 < m then sleeps ++ [attempt] else sleeps)
        (fun i h1 h2 => hfail i (by omega) (by omega))
      refine ⟨s, ?_⟩
      rw [runCommandGo, hb]
      simp only
      rw [hs]
      congr 2
      omega
    | spawnFail msg =>
      rw [hb] at hf
      simp [AttemptOutcome.isTransientFailure] at hf

/-- When every remaining attempt fails transiently, the
`minikube_control.py` loop exhausts likewise. -/
theorem mkRunCommandGo_exhaust (b : Nat → AttemptOutcome) :
    ∀ remaining attempt sleeps,
      (∀ i, attempt ≤ i → i < attempt + remaining →
        (b i).isTransientFailure = true) →
      ∃ s, mkRunCommandGo b attempt sleeps remaining =
        .ok ⟨none, attempt + remaining, s⟩ := by
  intro remaining
  induction remaining with
  | zero => intro attempt sleeps _; exact ⟨sleeps, rfl⟩
  | succ m ih =>
    intro attempt sleeps hfail
    have hf := hfail attempt (Nat.le_refl _) (by omega)
    cases hb : b attempt with
    | exit rc out err =>
      rw [hb] at hf
      simp only [AttemptOutcome.isTransientFailure, bne_iff_ne] at hf
      obtain ⟨s, hs⟩ := ih (attempt + 1) (sleeps ++ [attempt])
        (fun i h1 h2 => hfail i (by omega) (by omega))
      refine ⟨s, ?_⟩
      rw [mkRunCommandGo, hb]
      simp only [if_neg hf]
      rw [hs]
      congr 2
      omega
    | timedOut =>
      obtain ⟨s, hs⟩ := ih (attempt + 1) (sleeps ++ [attempt])
        (fun i h1 h2 => hfail i (by omega) (by omega))
      refine ⟨s, ?_⟩
      rw [mkRunCommandGo, hb]
      simp only
      rw [hs]
      congr 2
      omega
    | spawnFail msg =>
      rw [hb] at hf
      simp [AttemptOutcome.isTransientFailure] at hf

/-- When the attempts before `k` fail transiently and attempt `k` exits
with status 0, the `deploy_app.py` loop stops at attempt `k` and returns
its stripped stdout. -/
theorem runCommandGo_success (b : Nat → AttemptOutcome) (k : Nat)
    (out err : String) (hk : b k = .exit 0 out err) :
    ∀ remaining attempt sleeps,
      attempt ≤ k → k < attempt + remaining →
      (∀ i, attempt ≤ i → i < k → (b i).isTransientFailure = true) →
      ∃ s, runCommandGo b attempt sleeps remaining =
        .ok ⟨some (pyStrip out), k + 1, s⟩ := by
  intro remaining
  induction remaining with
  | zero => intro attempt sleeps h1 h2 _; omega
  | succ m ih =>
    intro attempt sleeps h1 h2 hfail
    rcases Nat.eq_or_lt_of_le h1 with he | hlt
    · subst he
      refine ⟨sleeps, ?_⟩
      rw [runCommandGo, hk]
      simp
    · have hf := hfail attempt (Nat.le_refl _) hlt
      cases hb : b attempt with
      | exit rc sout serr =>
        rw [hb] at hf
        simp only [AttemptOutcome.isTransientFailure, bne_iff_ne] at hf
        obtain ⟨s, hs⟩ := ih (attempt + 1)
          (if 0 < m then sleeps ++ [attempt] else sleeps)
          (by omega) (by omega) (fun i hi1 hi2 => hfail i (by omega) hi2)
        refine ⟨s, ?_⟩
        rw [runCommandGo, hb]
        simp only [if_neg hf]
        exact hs
      | timedOut =>
        obtain ⟨s, hs⟩ := ih (attempt + 1)
          (if 0 < m then sleeps ++ [attempt] else sleeps)
          (by omega) (by omega) (fun i hi1 hi2 => hfail i (by omega) hi2)
        refine ⟨s, ?_⟩
        rw [runCommandGo, hb]
        exact hs
      | spawnFail msg =>
        rw [hb] at hf
        simp [AttemptOutcome.isTransientFailure] at hf

/-- The `minikube_control.py` analogue of `runCommandGo_success`. -/
theorem mkRunCommandGo_success (b : Nat → AttemptOutcome) (k : Nat)
    (out err : String) (hk : b k = .exit 0 out err) :
    ∀ remaining attempt sleeps,
      attempt ≤ k → k < attempt + remaining →
      (∀ i, attempt ≤ i → i < k → (b i).isTransientFailure = true) →
      ∃ s, mkRunCommandGo b attempt sleeps remaining =
        .ok ⟨some (pyStrip out), k + 1, s⟩ := by
  intro remaining
  induction remaining with
  | zero => intro attempt sleeps h1 h2 _; omega
  | succ m ih =>
    intro attempt sleeps h1 h2 hfail
    rcases Nat.eq_or_lt_of_le h1 with he | hlt
    · subst he
      refine ⟨sleeps, ?_⟩
      rw [mkRunCommandGo, hk]
      simp
    · have hf := hfail attempt (Nat.le_refl _) hlt
      cases hb : b attempt with
      | exit rc sout serr =>
        rw [hb] at hf
        simp only [AttemptOutcome.isTransientFailure, bne_iff_ne] at hf
        obtain ⟨s, hs⟩ := ih (attempt + 1) (sleeps ++ [attempt])
          (by omega) (by omega) (fun i hi1 hi2 => hfail i (by omega) hi2)
        refine ⟨s, ?_⟩
        rw [mkRunCommandGo, hb]
        simp only [if_neg hf]
        exact hs
      | timedOut =>
        obtain ⟨s, hs⟩ := ih (attempt + 1) (sleeps ++ [attempt])
          (by omega) (by omega) (fun i hi1 hi2 => hfail i (by omega) hi2)
        refine ⟨s, ?_⟩
        rw [mkRunCommandGo, hb]
        exact hs
      | spawnFail msg =>
        rw [hb] at hf
        simp [AttemptOutcome.isTransientFailure] at hf

/-- When no remaining attempt is a spawn failure, the `deploy_app.py`
loop completes normally: the caller gets a value, not an exception. -/
theorem runCommandGo_no_raise (b : Nat → AttemptOutcome) :
    ∀ remaining attempt sleeps,
      (∀ i, attempt ≤ i → i < attempt + remaining →
        (b i).isSpawnFail = false) →
      ∃ r, runCommandGo b attempt sleeps remaining = .ok r := by
  intro remaining
  induction remaining with
  | zero => intro attempt sleeps _; exact ⟨_, rfl⟩
  | succ m ih =>
    intro attempt sleeps hns
    cases hb : b attempt with
    | exit rc out err =>
      by_cases hrc : rc = 0
      · refine ⟨⟨some (pyStrip out), attempt + 1, sleeps⟩, ?_⟩
        rw [runCommandGo, hb]
        simp [hrc]
      · obtain ⟨r, hr⟩ := ih (attempt + 1)
          (if 0 < m then sleeps ++ [attempt] else sleeps)
          (fun i h1 h2 => hns i (by omega) (by omega))
        refine ⟨r, ?_⟩
        rw [runCommandGo, hb]
        simp only [if_neg hrc]
        exact hr
    | timedOut =>
      obtain ⟨r, hr⟩ := ih (attempt + 1)
        (if 0 < m then sleeps ++ [attempt] else sleeps)
        (fun i h1 h2 => hns i (by omega) (by omega))
      refine ⟨r, ?_⟩
      rw [runCommandGo, hb]
      exact hr
    | spawnFail msg =>
      have := hns attempt (Nat.le_refl _) (by omega)
      rw [hb] at this
      simp [AttemptOutcome.isSpawnFail] at this

/-- The `minikube_control.py` analogue of `runCommandGo_no_raise`. -/
theorem mkRunCommandGo_no_raise (b : Nat → AttemptOutcome) :
    ∀ remaining attempt sleeps,
      (∀ i, attempt ≤ i → i < attempt + remaining →
        (b i).isSpawnFail = false) →
      ∃ r, mkRunCommandGo b attempt sleeps remaining = .ok r := by
  intro remaining
  induction remaining with
  | zero => intro attempt sleeps _; exact ⟨_, rfl⟩
  | succ m ih =>
    intro attempt sleeps hns
    cases hb : b attempt with
    | exit rc out err =>
      by_cases hrc : rc = 0
      · refine ⟨⟨some (pyStrip out), attempt + 1, sleeps⟩, ?_⟩
        rw [mkRunCommandGo, hb]
        simp [hrc]
      · obtain ⟨r, hr⟩ := ih (attempt + 1) (sleeps ++ [attempt])
          (fun i h1 h2 => hns i (by omega) (by omega))
        refine ⟨r, ?_⟩
        rw [mkRunCommandGo, hb]
        simp only [if_neg hrc]
        exact hr
    | timedOut =>
      obtain ⟨r, hr⟩ := ih (attempt + 1) (sleeps ++ [attempt])
        (fun i h1 h2 => hns i (by omega) (by omega))
      refine ⟨r, ?_⟩
      rw [mkRunCommandGo, hb]
      exact hr
    | spawnFail msg =>
      have := hns attempt (Nat.le_refl _) (by omega)
      rw [hb] at this
      simp [AttemptOutcome.isSpawnFail] at this

/-- `true` when the runner handed a value back to its caller instead of
letting an exception escape. -/
def returnsValue {ε α : Type} : Except ε α → Bool
  | .ok _ => true
  | .error _ => false

/-- The observable summary of a `run_command` call: the returned value
and the number of attempts performed. -/
def runSummary (x : Except String RunResult) :
    Except String (Option String × Nat) :=
  x.map fun r => (r.output, r.attemptsMade)

/-! ## Lemmas about the polling loops -/

/-- Once the elapsed time has reached the deadline, the application
wait loop reports failure at once. -/
theorem appWaitLoop_deadline (q : Nat → AttemptOutcome) (dur : Nat → Nat)
    (n elapsed : Nat) (h : DEPLOY_TIMEOUT ≤ elapsed) :
    appWaitLoop q dur n elapsed = .ok false := by
  rw [appWaitLoop]
  rw [dif_neg (by omega)]

/-- Once the elapsed time has reached the deadline, the monitoring wait
loop reports failure at once, whatever the readiness flags are. -/
theorem monWaitLoop_deadline (pq gq : Nat → AttemptOutcome)
    (pd gd : Nat → Nat) (n elapsed : Nat) (pr gr : Bool)
    (h : DEPLOY_TIMEOUT ≤ elapsed) :
    monWaitLoop pq gq pd gd n elapsed pr gr = .ok false := by
  rw [monWaitLoop]
  rw [dif_neg (by omega)]

/-- When every poll completes without an exception and never satisfies
the readiness test, the application wait loop returns `false`. -/
theorem appWaitLoop_never (q : Nat → AttemptOutcome) (dur : Nat → Nat)
    (hq : ∀ k, ∃ r, run_command (fun _ => q k) 1 = .ok r ∧
      appPodsReady r.output = false) :
    ∀ m n elapsed, DEPLOY_TIMEOUT - elapsed ≤ m →
      appWaitLoop q dur n elapsed = .ok false := by
  intro m
  induction m with
  | zero =>
    intro n elapsed he
    exact appWaitLoop_deadline q dur n elapsed (by omega)
  | succ m ih =>
    intro n elapsed he
    by_cases hlt : elapsed < DEPLOY_TIMEOUT
    · obtain ⟨r, hr, hnr⟩ := hq n
      rw [appWaitLoop, dif_pos hlt, hr]
      simp only [hnr, Bool.false_eq_true, if_false]
      exact ih (n + 1) (elapsed + dur n + 10) (by omega)
    · exact appWaitLoop_deadline q dur n elapsed (by omega)

/-- When every poll of both services completes without an exception and
never satisfies the readiness test, the monitoring wait loop returns
`false`. -/
theorem monWaitLoop_never (pq gq : Nat → AttemptOutcome)
    (pd gd : Nat → Nat)
    (hp : ∀ k, ∃ r, run_command (fun _ => pq k) 1 = .ok r ∧
      monPodReady r.output = false)
    (hg : ∀ k, ∃ r, run_command (fun _ => gq k) 1 = .ok r ∧
      monPodReady r.output = false) :
    ∀ m n elapsed, DEPLOY_TIMEOUT - elapsed ≤ m →
      monWaitLoop pq gq pd gd n elapsed false false = .ok false := by
  intro m
  induction m with
  | zero =>
    intro n elapsed he
    exact monWaitLoop_deadline pq gq pd gd n elapsed false false (by omega)
  | succ m ih =>
    intro n elapsed he
    by_cases hlt : elapsed < DEPLOY_TIMEOUT
    · obtain ⟨rp, hrp, hnp⟩ := hp n
      obtain ⟨rg, hrg, hng⟩ := hg n
      have h1 : monCheckOne false (pq n) = .ok false := by
        rw [monCheckOne]
        simp [hrp, hnp]
      have h2 : monCheckOne false (gq n) = .ok false := by
        rw [monCheckOne]
        simp [hrg, hng]
      rw [monWaitLoop, dif_pos hlt, h1, h2]
      simp only [Bool.and_self, Bool.false_eq_true, if_false]
      exact ih (n + 1) _ (by omega)
    · exact monWaitLoop_deadline pq gq pd gd n elapsed false false (by omega)

/-! ## The claims -/

/-- C1, counterexample: in a run where every stage the claim calls
fatal (namespace creation, react build, docker image build, application
deploy) succeeded and only the soft monitoring stage failed, the
pipeline still returns an overall failure flag — the run completed all
six calls, no fatal stage failed, yet the flag is `false`, contradicting
"the flag is true iff no fatal stage failed". -/
theorem C1_counterexample :
    (mainRun ⟨false, false, false⟩ ⟨true, true, true, true, false, true⟩).1
      = false ∧
    (mainRun ⟨false, false, false⟩ ⟨true, true, true, true, false, true⟩).2
      = [Stage.statusCheck, Stage.namespaces, Stage.reactBuild,
         Stage.dockerBuild, Stage.monitoring, Stage.deploy] ∧
    (⟨true, true, true, true, false, true⟩ : World).namespacesOk = true ∧
    (⟨true, true, true, true, false, true⟩ : World).reactBuildOk = true ∧
    (⟨true, true, true, true, false, true⟩ : World).dockerBuildOk = true ∧
    (⟨true, true, true, true, false, true⟩ : World).deployOk = true := by
  decide

/-- C1, amended: the overall success flag is true iff every stage that
ran and can fail reported success — the cluster check, namespace
creation, both build steps (unless skipped), the monitoring deploy
(unless skipped), and the application deploy.  In particular a failure
of the soft monitoring stage does flip the flag to false. -/
theorem C1_success_flag_iff (a : Args) (w : World) :
    (mainRun a w).1 =
      (w.minikubeRunning && w.namespacesOk &&
        (a.skipBuild || (w.reactBuildOk && w.dockerBuildOk)) &&
        (a.skipMonitoring || w.monitoringOk) && w.deployOk) := by
  obtain ⟨sb, sm, pf⟩ := a
  obtain ⟨mr, ns, rb, db, mo, dp⟩ := w
  cases mr <;> cases ns <;> cases sb <;> cases rb <;> cases db <;>
    cases sm <;> cases mo <;> cases dp <;> cases pf <;> rfl

/-- C2, counterexample: `minikube_control.py`'s runner, with every
attempt failing and `retry = 2`, performs 2 attempts and records backoff
sleeps after attempt 0 and after attempt 1 — the final attempt — so the
fixed backoff does not happen only between consecutive attempts. -/
theorem C2_counterexample :
    mk_run_command (fun _ => AttemptOutcome.exit 1 "" "err") 2 =
      .ok ⟨none, 2, [0, 1]⟩ ∧ ¬ (1 + 1 < 2) :=
  ⟨rfl, by decide⟩

/-- C2, amended: `deploy_app.py`'s runner sleeps exactly after the
failed attempts that were followed by another attempt (never after the
final one); `minikube_control.py`'s runner additionally sleeps after the
final attempt whenever the invocation exhausted its retries. -/
theorem C2_backoff_placement (b : Nat → AttemptOutcome) (retry : Nat)
    (r : RunResult) (i : Nat) :
    (run_command b retry = .ok r →
      (i ∈ r.sleepsAfter ↔ i + 1 < r.attemptsMade))
    ∧ (mk_run_command b retry = .ok r →
      (i ∈ r.sleepsAfter ↔ (i + 1 < r.attemptsMade ∨
        (i + 1 = r.attemptsMade ∧ r.output = none)))) := by
  constructor
  · intro h
    have hs := (runCommandGo_ok_spec b retry 0 [] r h).1 i
    simpa using hs
  · intro h
    have hs := (mkRunCommandGo_ok_spec b retry 0 [] r h).1 i
    simpa using hs

/-- Witness for C2's amended theorem at concrete runs: an exhausted
2-attempt `deploy_app.py` run sleeps only after attempt 0, and an
exhausted 2-attempt `minikube_control.py` run also sleeps after its
final attempt. -/
theorem C2_backoff_placement_witness :
    ((0 : Nat) ∈ ([0] : List Nat) ↔ 0 + 1 < 2) ∧
    ((1 : Nat) ∈ ([0, 1] : List Nat) ↔ (1 + 1 < 2 ∨
      (1 + 1 = 2 ∧ (none : Option String) = none))) :=
  ⟨(C2_backoff_placement (fun _ => .exit 1 "" "e") 2 ⟨none, 2, [0]⟩ 0).1
      rfl,
    (C2_backoff_placement (fun _ => .exit 1 "" "e") 2 ⟨none, 2, [0, 1]⟩
      1).2 rfl⟩

/-- C6: a fatal stage failure halts all later stages — when namespace
creation fails nothing after it runs; when the react build fails (build
not skipped) only the status check, namespaces and react build ran and
the flag is false; when the docker build fails the pipeline stops there;
and a failure of the soft monitoring stage does not prevent the deploy
stage from running (though the flag ends up false). -/
theorem C6_fatal_halts_soft_continues :
    (∀ a w, w.minikubeRunning = true → w.namespacesOk = false →
      (mainRun a w).1 = false ∧
      (mainRun a w).2 = [Stage.statusCheck, Stage.namespaces])
    ∧ (∀ a w, a.skipBuild = false → w.minikubeRunning = true →
        w.namespacesOk = true → w.reactBuildOk = false →
        (mainRun a w).1 = false ∧
        (mainRun a w).2 =
          [Stage.statusCheck, Stage.namespaces, Stage.reactBuild])
    ∧ (∀ a w, a.skipBuild = false → w.minikubeRunning = true →
        w.namespacesOk = true → w.reactBuildOk = true →
        w.dockerBuildOk = false →
        (mainRun a w).1 = false ∧
        (mainRun a w).2 = [Stage.statusCheck, Stage.namespaces,
          Stage.reactBuild, Stage.dockerBuild])
    ∧ (∀ a w, w.minikubeRunning = true → w.namespacesOk = true →
        (a.skipBuild = true ∨
          (w.reactBuildOk = true ∧ w.dockerBuildOk = true)) →
        a.skipMonitoring = false → w.monitoringOk = false →
        Stage.deploy ∈ (mainRun a w).2 ∧ (mainRun a w).1 = false) := by
  refine ⟨?_, ?_, ?_, ?_⟩
  · intro a w h1 h2
    obtain ⟨sb, sm, pf⟩ := a
    obtain ⟨mr, ns, rb, db, mo, dp⟩ := w
    subst h1; subst h2
    cases sb <;> cases sm <;> cases pf <;> cases rb <;> cases db <;>
      cases mo <;> cases dp <;> decide
  · intro a w h0 h1 h2 h3
    obtain ⟨sb, sm, pf⟩ := a
    obtain ⟨mr, ns, rb, db, mo, dp⟩ := w
    subst h0; subst h1; subst h2; subst h3
    cases sm <;> cases pf <;> cases db <;> cases mo <;> cases dp <;>
      decide
  · intro a w h0 h1 h2 h3 h4
    obtain ⟨sb, sm, pf⟩ := a
    obtain ⟨mr, ns, rb, db, mo, dp⟩ := w
    subst h0; subst h1; subst h2; subst h3; subst h4
    cases sm <;> cases pf <;> cases mo <;> cases dp <;> decide
  · intro a w h1 h2 hb h3 h4
    obtain ⟨sb, sm, pf⟩ := a
    obtain ⟨mr, ns, rb, db, mo, dp⟩ := w
    subst h1; subst h2; subst h3; subst h4
    rcases hb with hb | ⟨hb1, hb2⟩
    · subst hb
      cases rb <;> cases db <;> cases dp <;> cases pf <;> decide
    · subst hb1; subst hb2
      cases sb <;> cases dp <;> cases pf <;> decide

/-- Witness for C6 at concrete runs: namespaces failing, the react
build failing, the docker build failing, and the monitoring stage
failing while deploy still runs. -/
theorem C6_witness :
    ((mainRun ⟨false, false, false⟩
        ⟨true, false, true, true, true, true⟩).1 = false ∧
      (mainRun ⟨false, false, false⟩
        ⟨true, false, true, true, true, true⟩).2 =
        [Stage.statusCheck, Stage.namespaces]) ∧
    ((mainRun ⟨false, false, false⟩
        ⟨true, true, false, true, true, true⟩).1 = false ∧
      (mainRun ⟨false, false, false⟩
        ⟨true, true, false, true, true, true⟩).2 =
        [Stage.statusCheck, Stage.namespaces, Stage.reactBuild]) ∧
    ((mainRun ⟨false, false, false⟩
        ⟨true, true, true, false, true, true⟩).1 = false ∧
      (mainRun ⟨false, false, false⟩
        ⟨true, true, true, false, true, true⟩).2 =
        [Stage.statusCheck, Stage.namespaces, Stage.reactBuild,
          Stage.dockerBuild]) ∧
    (Stage.deploy ∈ (mainRun ⟨false, false, false⟩
        ⟨true, true, true, true, false, true⟩).2 ∧
      (mainRun ⟨false, false, false⟩
        ⟨true, true, true, true, false, true⟩).1 = false) :=
  ⟨C6_fatal_halts_soft_continues.1 ⟨false, false, false⟩
      ⟨true, false, true, true, true, true⟩ rfl rfl,
    C6_fatal_halts_soft_continues.2.1 ⟨false, false, false⟩
      ⟨true, true, false, true, true, true⟩ rfl rfl rfl rfl,
    C6_fatal_halts_soft_continues.2.2.1 ⟨false, false, false⟩
      ⟨true, true, true, false, true, true⟩ rfl rfl rfl rfl rfl,
    C6_fatal_halts_soft_continues.2.2.2 ⟨false, false, false⟩
      ⟨true, true, true, true, false, true⟩ rfl rfl
      (Or.inr ⟨rfl, rfl⟩) rfl rfl⟩

/-- C7: when the initial cluster check reports not running, `main`
returns failure with only that check performed — no namespace, build,
monitoring, deploy or port-forward call is made. -/
theorem C7_prereq_aborts (a : Args) (w : World)
    (h : w.minikubeRunning = false) :
    mainRun a w = (false, [Stage.statusCheck]) := by
  obtain ⟨mr, ns, rb, db, mo, dp⟩ := w
  subst h
  rfl

/-- Witness for C7 at a concrete run. -/
theorem C7_prereq_aborts_witness :
    mainRun ⟨false, false, true⟩ ⟨false, true, true, true, true, true⟩ =
      (false, [Stage.statusCheck]) :=
  C7_prereq_aborts ⟨false, false, true⟩
    ⟨false, true, true, true, true, true⟩ rfl

/-- C10: `setup_port_forwarding` is guarded by
`if args.port_forward and success` — when the monitoring stage (not
skipped) or the application deploy failed, the port-forward call is
never made, whatever the flags. -/
theorem C10_port_forward_guard (a : Args) (w : World)
    (h : w.deployOk = false ∨
      (a.skipMonitoring = false ∧ w.monitoringOk = false)) :
    Stage.portForward ∉ (mainRun a w).2 := by
  obtain ⟨sb, sm, pf⟩ := a
  obtain ⟨mr, ns, rb, db, mo, dp⟩ := w
  rcases h with h | ⟨h1, h2⟩
  · subst h
    cases mr <;> cases ns <;> cases sb <;> cases rb <;> cases db <;>
      cases sm <;> cases mo <;> cases pf <;> decide
  · subst h1; subst h2
    cases mr <;> cases ns <;> cases sb <;> cases rb <;> cases db <;>
      cases dp <;> cases pf <;> decide

/-- Witness for C10 at a concrete run: deploy failed, `--port-forward`
requested, port-forwarding still not invoked. -/
theorem C10_port_forward_guard_witness :
    Stage.portForward ∉
      (mainRun ⟨false, false, true⟩
        ⟨true, true, true, true, true, false⟩).2 :=
  C10_port_forward_guard ⟨false, false, true⟩
    ⟨true, true, true, true, true, false⟩ (Or.inl rfl)

/-- C3, counterexample: `minikube_control.py`'s status check runs its
query through that script's runner with the default `retry = 3`; when
the first attempt fails transiently and the second succeeds with output
containing "Running", the check reports running after 2 attempts — the
transient failure of the query command was retried at the command
level. -/
theorem C3_counterexample :
    mk_check_minikube_status (fun _ => none)
      (fun i => if i = 0 then AttemptOutcome.exit 1 "" "e"
        else AttemptOutcome.exit 0 "host Running" "") =
      .ok (true, 2) ∧ (2 : Nat) ≠ 1 :=
  ⟨rfl, by decide⟩

/-- C3, amended: `deploy_app.py`'s status check — and every poll it
issues with `retry = 1`, the readiness loops included — performs
exactly one attempt, while `minikube_control.py`'s status check may
perform up to 3 attempts (and so does retry transient failures). -/
theorem C3_status_query_attempts (jh : String → Option String)
    (b : Nat → AttemptOutcome) (r : RunResult) (p : Bool × Nat) :
    (run_command b 1 = .ok r → r.attemptsMade = 1)
    ∧ (check_minikube_status jh b = .ok p → p.2 = 1)
    ∧ (mk_check_minikube_status jh b = .ok p → 1 ≤ p.2 ∧ p.2 ≤ 3) := by
  have key : ∀ r', run_command b 1 = .ok r' → r'.attemptsMade = 1 := by
    intro r' h
    have hs := (runCommandGo_ok_spec b 1 0 [] r' h).2
    omega
  have keymk : ∀ r', mk_run_command b 3 = .ok r' →
      1 ≤ r'.attemptsMade ∧ r'.attemptsMade ≤ 3 := by
    intro r' h
    have hs := (mkRunCommandGo_ok_spec b 3 0 [] r' h).2
    omega
  refine ⟨key r, ?_, ?_⟩
  · intro h
    cases hrun : run_command b 1 with
    | error e =>
      simp only [check_minikube_status, hrun] at h
      exact absurd h (by simp)
    | ok r' =>
      have ha := key r' hrun
      simp only [check_minikube_status, hrun] at h
      cases ho : r'.output with
      | none =>
        rw [ho] at h
        simp only [Except.ok.injEq] at h
        rw [← h]
        exact ha
      | some s =>
        rw [ho] at h
        simp only at h
        split at h <;>
          (simp only [Except.ok.injEq] at h; rw [← h]; exact ha)
  · intro h
    cases hrun : mk_run_command b 3 with
    | error e =>
      simp only [mk_check_minikube_status, hrun] at h
      exact absurd h (by simp)
    | ok r' =>
      have ha := keymk r' hrun
      simp only [mk_check_minikube_status, hrun] at h
      cases ho : r'.output with
      | none =>
        rw [ho] at h
        simp only [Except.ok.injEq] at h
        rw [← h]
        exact ha
      | some s =>
        rw [ho] at h
        simp only at h
        split at h <;>
          (simp only [Except.ok.injEq] at h; rw [← h]; exact ha)

/-- Witness for C3's amended theorem at concrete queries: one attempt
for `deploy_app.py`'s check, three attempts (within the 1..3 bound) for
an exhausted `minikube_control.py` check. -/
theorem C3_status_query_attempts_witness :
    ((⟨some "x", 1, []⟩ : RunResult).attemptsMade = 1) ∧
    (((false, 1) : Bool × Nat).2 = 1) ∧
    (1 ≤ ((false, 3) : Bool × Nat).2 ∧ ((false, 3) : Bool × Nat).2 ≤ 3) :=
  ⟨(C3_status_query_attempts (fun _ => none) (fun _ => .exit 0 "x" "")
      ⟨some "x", 1, []⟩ (false, 1)).1 rfl,
    (C3_status_query_attempts (fun _ => none) (fun _ => .exit 0 "x" "")
      ⟨some "x", 1, []⟩ (false, 1)).2.1 rfl,
    (C3_status_query_attempts (fun _ => none) (fun _ => .exit 1 "" "e")
      ⟨none, 3, [0, 1, 2]⟩ (false, 3)).2.2 rfl⟩

/-- C4, counterexample: a spawn failure (the Python exception
`subprocess.run` raises when the executable is missing) is not caught
by either runner's `except subprocess.TimeoutExpired` handler, so the
invocation raises instead of returning a value. -/
theorem C4_counterexample :
    run_command (fun _ => AttemptOutcome.spawnFail "FileNotFoundError") 1
      = .error "FileNotFoundError" ∧
    mk_run_command
        (fun _ => AttemptOutcome.spawnFail "FileNotFoundError") 3
      = .error "FileNotFoundError" :=
  ⟨rfl, rfl⟩

/-- C4, amended: for every command whose attempts all spawn
successfully — each attempt either exits (with any status) or times
out — both runners never raise: the caller always receives a return
value. -/
theorem C4_no_raise (b : Nat → AttemptOutcome) (retry : Nat)
    (h : ∀ i, i < retry → (b i).isSpawnFail = false) :
    returnsValue (run_command b retry) = true ∧
    returnsValue (mk_run_command b retry) = true := by
  obtain ⟨r1, h1⟩ := runCommandGo_no_raise b retry 0 []
    (fun i hi1 hi2 => h i (by omega))
  obtain ⟨r2, h2⟩ := mkRunCommandGo_no_raise b retry 0 []
    (fun i hi1 hi2 => h i (by omega))
  constructor
  · unfold run_command
    rw [h1]
    rfl
  · unfold mk_run_command
    rw [h2]
    rfl

/-- Witness for C4's amended theorem at a concrete command whose
attempts all time out. -/
theorem C4_no_raise_witness :
    returnsValue (run_command (fun _ => AttemptOutcome.timedOut) 2)
      = true ∧
    returnsValue (mk_run_command (fun _ => AttemptOutcome.timedOut) 2)
      = true :=
  C4_no_raise (fun _ => .timedOut) 2 (fun _ _ => rfl)

/-- C5: with `retry = N ≥ 1`, if every attempt fails transiently both
runners perform exactly N attempts and return `None` (exhausted
retries); if the attempts before K fail transiently and attempt K
(1-based) exits with status 0, both runners perform exactly K attempts
and return that attempt's stripped stdout. -/
theorem C5_attempt_counts (b : Nat → AttemptOutcome) (N : Nat)
    (_hN : 1 ≤ N) :
    ((∀ i, i < N → (b i).isTransientFailure = true) →
      runSummary (run_command b N) = .ok (none, N) ∧
      runSummary (mk_run_command b N) = .ok (none, N))
    ∧ (∀ K out err, 1 ≤ K → K ≤ N →
        (∀ i, i < K - 1 → (b i).isTransientFailure = true) →
        b (K - 1) = .exit 0 out err →
        runSummary (run_command b N) = .ok (some (pyStrip out), K) ∧
        runSummary (mk_run_command b N) = .ok (some (pyStrip out), K))
    := by
  constructor
  · intro hf
    obtain ⟨s1, h1⟩ := runCommandGo_exhaust b N 0 []
      (fun i hi1 hi2 => hf i (by omega))
    obtain ⟨s2, h2⟩ := mkRunCommandGo_exhaust b N 0 []
      (fun i hi1 hi2 => hf i (by omega))
    constructor
    · unfold runSummary run_command
      rw [h1]
      simp [Except.map]
    · unfold runSummary mk_run_command
      rw [h2]
      simp [Except.map]
  · intro K out err hK1 hK2 hf hk
    have hkk : K - 1 + 1 = K := by omega
    obtain ⟨s1, h1⟩ := runCommandGo_success b (K - 1) out err hk N 0 []
      (by omega) (by omega) (fun i hi1 hi2 => hf i hi2)
    obtain ⟨s2, h2⟩ := mkRunCommandGo_success b (K - 1) out err hk N 0 []
      (by omega) (by omega) (fun i hi1 hi2 => hf i hi2)
    constructor
    · unfold runSummary run_command
      rw [h1]
      simp [Except.map, hkk]
    · unfold runSummary mk_run_command
      rw [h2]
      simp [Except.map, hkk]

/-- Witness for C5 at concrete commands: a command failing both of its
2 attempts exhausts with 2 attempts, and a command timing out once then
succeeding stops after 2 of its 3 allowed attempts with the stripped
stdout of the successful attempt. -/
theorem C5_attempt_counts_witness :
    (runSummary (run_command (fun _ => AttemptOutcome.exit 1 "" "e") 2)
        = .ok (none, 2) ∧
      runSummary
          (mk_run_command (fun _ => AttemptOutcome.exit 1 "" "e") 2)
        = .ok (none, 2)) ∧
    (runSummary (run_command (fun i => if i = 0 then
          AttemptOutcome.timedOut else AttemptOutcome.exit 0 " ok " "") 3)
        = .ok (some "ok", 2) ∧
      runSummary (mk_run_command (fun i => if i = 0 then
          AttemptOutcome.timedOut else AttemptOutcome.exit 0 " ok " "") 3)
        = .ok (some "ok", 2)) :=
  ⟨(C5_attempt_counts (fun _ => .exit 1 "" "e") 2 (by omega)).1
      (fun _ _ => rfl),
    (C5_attempt_counts (fun i => if i = 0 then AttemptOutcome.timedOut
        else AttemptOutcome.exit 0 " ok " "") 3 (by omega)).2
      2 " ok " "" (by omega) (by omega)
      (fun i hi => by
        have h0 : i = 0 := by omega
        subst h0
        rfl)
      rfl⟩

/-- C8: the readiness-polling loops of `deploy_monitoring` and
`deploy_application` always terminate with `false` when the polls keep
failing or never satisfy the readiness predicate, and — for arbitrary
poll behaviour — report `false` as soon as the elapsed time has reached
the `DEPLOY_TIMEOUT` deadline. -/
theorem C8_polling_deadline
    (q pq gq q2 pq2 gq2 : Nat → AttemptOutcome)
    (dur pd gd dur2 pd2 gd2 : Nat → Nat) (n n2 e e2 : Nat) (pr gr : Bool)
    (hq : ∀ k, ∃ r, run_command (fun _ => q k) 1 = .ok r ∧
      appPodsReady r.output = false)
    (hp : ∀ k, ∃ r, run_command (fun _ => pq k) 1 = .ok r ∧
      monPodReady r.output = false)
    (hg : ∀ k, ∃ r, run_command (fun _ => gq k) 1 = .ok r ∧
      monPodReady r.output = false)
    (he2 : DEPLOY_TIMEOUT ≤ e2) :
    appWaitLoop q dur n e = .ok false
    ∧ monWaitLoop pq gq pd gd n e false false = .ok false
    ∧ appWaitLoop q2 dur2 n2 e2 = .ok false
    ∧ monWaitLoop pq2 gq2 pd2 gd2 n2 e2 pr gr = .ok false :=
  ⟨appWaitLoop_never q dur hq DEPLOY_TIMEOUT n e (by omega),
    monWaitLoop_never pq gq pd gd hp hg DEPLOY_TIMEOUT n e (by omega),
    appWaitLoop_deadline q2 dur2 n2 e2 he2,
    monWaitLoop_deadline pq2 gq2 pd2 gd2 n2 e2 pr gr he2⟩

/-- Witness for C8 at concrete behaviours: polls that always fail give
`false` from elapsed 0, and at elapsed 300 the loops give `false` even
when every poll would report ready. -/
theorem C8_polling_deadline_witness :
    appWaitLoop (fun _ => AttemptOutcome.exit 1 "" "e") (fun _ => 0) 0 0
      = .ok false
    ∧ monWaitLoop (fun _ => AttemptOutcome.exit 1 "" "e")
        (fun _ => AttemptOutcome.exit 1 "" "e") (fun _ => 0) (fun _ => 0)
        0 0 false false = .ok false
    ∧ appWaitLoop (fun _ => AttemptOutcome.exit 0 "Running" "")
        (fun _ => 0) 0 300 = .ok false
    ∧ monWaitLoop (fun _ => AttemptOutcome.exit 0 "Running" "")
        (fun _ => AttemptOutcome.exit 0 "Running" "") (fun _ => 0)
        (fun _ => 0) 0 300 true true = .ok false :=
  C8_polling_deadline _ _ _ _ _ _ _ _ _ _ _ _ 0 0 0 300 true true
    (fun _ => ⟨⟨none, 1, []⟩, rfl, rfl⟩)
    (fun _ => ⟨⟨none, 1, []⟩, rfl, rfl⟩)
    (fun _ => ⟨⟨none, 1, []⟩, rfl, rfl⟩)
    (by decide)

/-- C9: when the status check already reports the cluster running,
`start_minikube` returns success having issued only that read-only
status query — in particular no `minikube start` command is spawned. -/
theorem C9_start_idempotent (w : MkWorld) (h : w.status 0 = true) :
    start_minikube w = (true, [MkCmd.statusQuery]) := by
  unfold start_minikube
  rw [if_pos h]

/-- Witness for C9 at a concrete already-running world. -/
theorem C9_start_idempotent_witness :
    start_minikube ⟨fun _ => true, none, fun _ => none, fun _ => 0⟩ =
      (true, [MkCmd.statusQuery]) :=
  C9_start_idempotent ⟨fun _ => true, none, fun _ => none, fun _ => 0⟩
    rfl

end SRE
